import Mathlib

/-!
Verification of the connection-level transport core of a QUIC endpoint
(QuicTransportBase), shallowly embedded from `quic/api/QuicTransportBase.cpp`.

Machine integers of the source (`uint64_t`, `uint8_t`) are modelled as `Nat`,
with an explicit `% 2 ^ 64` where unsigned overflow could occur.  C++ pointers
used only for identity (callback recipients) are modelled as `Nat` identifiers,
with `Option Nat` where the source may pass `nullptr`.  Fallible operations
returning `folly::Expected<T, LocalErrorCode>` are modelled as
`Except LocalErrorCode T`.  Collaborator calls that only notify external code
(application callbacks, observers) are modelled as emitted events recorded in
the operation's result.
-/

namespace Mvfst

/-- Node role of the endpoint. -/
inductive NodeType where
  | Client
  | Server
deriving DecidableEq, Repr

/-- Close state of the connection (`CloseState`). -/
inductive CloseState where
  | OPEN
  | GRACEFUL_CLOSING
  | CLOSED
deriving DecidableEq, Repr

/-- `LocalErrorCode` values used by the transport core. -/
inductive LocalErrorCode where
  | NO_ERROR
  | INVALID_OPERATION
  | CONNECTION_CLOSED
  | STREAM_NOT_EXISTS
  | STREAM_CLOSED
  | APP_ERROR
  | CONNECTION_RESET
  | CONNECTION_ABANDONED
  | TRANSPORT_ERROR
  | INTERNAL_ERROR
  | IDLE_TIMEOUT
  | SHUTTING_DOWN
deriving DecidableEq, Repr

/-- `TransportErrorCode` values used by the transport core. -/
inductive TransportErrorCode where
  | NO_ERROR
  | INVALID_MIGRATION
  | PROTOCOL_VIOLATION
  | INTERNAL_ERROR
deriving DecidableEq, Repr

/-- `QuicErrorCode`: a variant over local, transport and application error
codes (application codes are plain integers on the wire). -/
inductive QuicErrorCode where
  | Loc (c : LocalErrorCode)
  | Transport (c : TransportErrorCode)
  | Application (c : Nat)
deriving DecidableEq, Repr

/-- `QuicError`: an error code together with a message. -/
structure QuicError where
  code : QuicErrorCode
  message : String
deriving DecidableEq, Repr

/-- Modelled from the spec: `toString(LocalErrorCode)` (QuicConstants.cpp is
not part of the provided source); only the `NO_ERROR` string is ever used by
the embedded code, the remaining strings are placeholders. -/
def localErrorCodeToString (c : LocalErrorCode) : String :=
  match c with
  | .NO_ERROR => "No Error"
  | _ => "Local Error"

/-- Modelled from the spec: `GenericApplicationErrorCode::NO_ERROR`
(QuicConstants.h is not part of the provided source); an application error
code distinguished as the generic no-error value. -/
def APP_NO_ERROR : Nat := 0

/-- Modelled from the spec: `toString(GenericApplicationErrorCode)`. -/
def appErrorCodeToString (_c : Nat) : String := "No Error"

/-- ECN validation state (`ECNState`). -/
inductive ECNState where
  | NotAttempted
  | AttemptingECN
  | AttemptingL4S
  | ValidatedECN
  | ValidatedL4S
  | FailedValidation
deriving DecidableEq, Repr

/-- Receive-side stream state, as far as the core consults it
(`StreamRecvState`). -/
inductive StreamRecvState where
  | Open_
  | Closed_
deriving DecidableEq, Repr

/-- Byte-event type (`ByteEvent::Type`): ACK = delivery, TX = transmission. -/
inductive BEType where
  | ACK
  | TX
deriving DecidableEq, Repr

/-- One entry of a byte-event queue (`ByteEventDetail`): a registered offset
and the identity of the callback recipient. -/
structure ByteEventDetail where
  offset : Nat
  callback : Nat
deriving DecidableEq, Repr

/-- Per-stream read-callback entry (`ReadCallbackData`): callback pointer
(`none` models `nullptr`), resumed bit and delivered-EOM bit. -/
structure ReadCallbackData where
  readCb : Option Nat
  resumed : Bool
  deliveredEOM : Bool
deriving DecidableEq, Repr

/-- The transport settings consulted by the embedded operations. -/
structure TransportSettings where
  shouldDrain : Bool
  dropIngressOnStopSending : Bool
  totalBufferSpaceAvailable : Nat
  backpressureHeadroomFactor : Nat
deriving DecidableEq, Repr

/-- The per-stream state the embedded operations consult.  The last three
fields are values computed by collaborators outside the provided source
(`getSendStreamFlowControlBytesAPI`, `getLargestDeliverableOffset`,
`getLargestWriteOffsetTxed`); they are carried as abstract attributes. -/
structure StreamInfo where
  recvState : StreamRecvState
  sendStreamFlowControlBytes : Nat
  largestDeliverableOffset : Option Nat
  largestWriteOffsetTxed : Option Nat
deriving DecidableEq, Repr

/-- The connection-plus-transport state over which the embedded operations
run.  Fields mirror `QuicConnectionStateBase` and the `QuicTransportBase`
members that the verified operations read or write.  Timer and looper
collaborators are represented by their armed/running bits; the UDP socket by
its bound bit and the history of TOS values pushed to it; the packet-processor
list by the number of installed `EcnL4sTracker` processors (the only kind the
verified code manipulates). -/
structure Conn where
  nodeType : NodeType
  closeState : CloseState
  transportSettings : TransportSettings
  peerConnectionError : Option QuicError
  localConnectionError : Option QuicError
  exceptionCloseWhat : Option String
  -- flow-control state
  sumCurStreamBufferLen : Nat
  sendConnFlowControlBytes : Nat
  congestionControlWritableBytes : Nat
  -- loss state, as consulted by PTO computation
  srtt : Nat
  rttvar : Nat
  maxAckDelay : Nat
  granularity : Nat
  -- stream manager
  streams : List (Nat × StreamInfo)
  deliverableStreams : List Nat
  txStreams : List Nat
  -- callback registry
  readCallbacks : List (Nat × ReadCallbackData)
  deliveryCallbacks : List (Nat × List ByteEventDetail)
  txCallbacks : List (Nat × List ByteEventDetail)
  connCallbackSet : Bool
  connSetupCallbackSet : Bool
  -- pending events
  pendingStopSendingFrames : List (Nat × Nat)
  ingressDropped : List Nat
  -- timers (armed bits)
  lossTimerArmed : Bool
  ackTimerArmed : Bool
  pathValidationTimerArmed : Bool
  idleTimerArmed : Bool
  keepaliveTimerArmed : Bool
  pingTimerArmed : Bool
  excessWriteTimerArmed : Bool
  drainTimerArmed : Bool
  -- loopers (running bits)
  readLooperRunning : Bool
  peekLooperRunning : Bool
  writeLooperRunning : Bool
  -- socket and binding
  socketBound : Bool
  connectionBound : Bool
  -- outstandings / congestion controller / datagram buffers
  outstandingPacketCount : Nat
  congestionControllerSet : Bool
  datagramReadBufferLen : Nat
  datagramWriteBufferLen : Nat
  transportReadyNotified : Bool
  -- ECN state
  ecnState : ECNState
  minimumExpectedEcnMarksEchoed : Nat
  totalPacketsSent : Nat
  ecnCECountEchoed : Nat
  ecnECT0CountEchoed : Nat
  ecnECT1CountEchoed : Nat
  socketTosDscp : Nat
  socketTosEcn : Nat
  tosHistory : List Nat
  ecnL4sTrackerSet : Bool
  packetProcessorTrackerCount : Nat
deriving DecidableEq, Repr

/-- Association-list lookup keyed by stream id, modelling `map.find(id)`. -/
def lookupQ {α : Type} : List (Nat × α) → Nat → Option α
  | [], _ => none
  | (k, v) :: rest, id => if k = id then some v else lookupQ rest id

/-- Association-list update of the value stored at an existing key. -/
def updateQ {α : Type} : List (Nat × α) → Nat → α → List (Nat × α)
  | [], _, _ => []
  | (k, v) :: rest, id, v' =>
    if k = id then (k, v') :: rest else (k, v) :: updateQ rest id v'

/-- Association-list erasure of a key, modelling `map.erase(id)`. -/
def eraseQ {α : Type} : List (Nat × α) → Nat → List (Nat × α)
  | [], _ => []
  | (k, v) :: rest, id => if k = id then rest else (k, v) :: eraseQ rest id

/-- List erasure of an element of a plain id set, modelling
`removeDeliverable` / `removeTx` on the stream manager's sets. -/
def eraseId : List Nat → Nat → List Nat
  | [], _ => []
  | k :: rest, id => if k = id then rest else k :: eraseId rest id

/-- Modelled from the spec: `isSendingStream(nodeType, id)`
(QuicStreamUtilities is not part of the provided source).  A sending stream is
a unidirectional stream initiated by the local node: for a client the ids
congruent to 2 mod 4, for a server those congruent to 3 mod 4 (spec section 8,
scenario S6: a client-initiated receive-only stream seen from the server). -/
def isSendingStream (n : NodeType) (id : Nat) : Bool :=
  match n with
  | .Client => id % 4 = 2
  | .Server => id % 4 = 3

/-- Modelled from the spec: `isReceivingStream(nodeType, id)`, the mirror of
`isSendingStream`: a unidirectional stream initiated by the peer. -/
def isReceivingStream (n : NodeType) (id : Nat) : Bool :=
  match n with
  | .Client => id % 4 = 3
  | .Server => id % 4 = 2

/-- `conn_->streamManager->streamExists(id)`. -/
def streamExists (s : Conn) (id : Nat) : Bool :=
  (lookupQ s.streams id).isSome

/-!  ## Flow control: `bufferSpaceAvailable`, `maxWritableOnConn`,
`maxWritableOnStream`  -/

/-- `QuicTransportBase::bufferSpaceAvailable` (QuicTransportBase.cpp:659):
remaining buffer budget, clamping to 0 when more is buffered than the total
budget. -/
def bufferSpaceAvailable (s : Conn) : Nat :=
  let bytesBuffered := s.sumCurStreamBufferLen
  let totalBufferSpaceAvailable := s.transportSettings.totalBufferSpaceAvailable
  if bytesBuffered > totalBufferSpaceAvailable then 0
  else totalBufferSpaceAvailable - bytesBuffered

/-- `QuicTransportBase::maxWritableOnConn` (QuicTransportBase.cpp:2275).
`getSendConnFlowControlBytesAPI` and `congestionControlWritableBytes` are
collaborator values carried in the state; `backpressureHeadroomFactor` is a
`uint8_t`, and its product with the congestion window is 64-bit unsigned
arithmetic, hence the explicit reduction mod `2 ^ 64`. -/
def maxWritableOnConn (s : Conn) : Nat :=
  let connWritableBytes := s.sendConnFlowControlBytes
  let availableBufferSpace := bufferSpaceAvailable s
  let ret := min connWritableBytes availableBufferSpace
  let multiplier := s.transportSettings.backpressureHeadroomFactor
  if multiplier > 0 then
    let headRoom := multiplier * s.congestionControlWritableBytes % 2 ^ 64
    let bufferLen := s.sumCurStreamBufferLen
    let headRoom := headRoom - (if bufferLen > headRoom then headRoom else bufferLen)
    min ret headRoom
  else ret

/-- `QuicTransportBase::maxWritableOnStream` (QuicTransportBase.cpp:2268):
minimum of the stream's flow-control bytes and the connection bound. -/
def maxWritableOnStream (s : Conn) (stream : StreamInfo) : Nat :=
  min stream.sendStreamFlowControlBytes (maxWritableOnConn s)

/-!  ## Close lifecycle: `closeImpl`, `drainTimeoutExpired`, `close`,
`closeNow`  -/

/-- Modelled from the spec: `kDrainFactor` (QuicConstants.h is not part of the
provided source); the drain duration multiplier, spec glossary: duration =
drainFactor x PTO. -/
def kDrainFactor : Nat := 3

/-- Modelled from the spec: `calculatePTO(conn)` (loss-detection math is an
external collaborator); spec glossary: PTO = srtt + max(4 x rttvar,
granularity) + peer-ack-delay. -/
def calculatePTO (s : Conn) : Nat :=
  s.srtt + max (4 * s.rttvar) s.granularity + s.maxAckDelay

/-- `QuicTransportBase::closeUdpSocket` (QuicTransportBase.cpp:452): a no-op
when there is no socket, otherwise pauses reads, closes and releases it. -/
def closeUdpSocket (s : Conn) : Conn :=
  if s.socketBound = false then s else { s with socketBound := false }

/-- Modelled from the spec: `unbindConnection` (implemented by derived
classes, not part of the provided source); unbinds the connection from its
owner. -/
def unbindConnection (s : Conn) : Conn :=
  { s with connectionBound := false }

/-- `QuicTransportBase::drainTimeoutExpired` (QuicTransportBase.cpp:520):
closes the UDP socket and unbinds the connection. -/
def drainTimeoutExpired (s : Conn) : Conn :=
  unbindConnection (closeUdpSocket s)

/-- `maybeSetGenericAppError` (QuicTransportBase.cpp:37): substitutes the
generic application no-error code when no error was provided. -/
def maybeSetGenericAppError (error : Option QuicError) : QuicError :=
  error.getD ⟨QuicErrorCode.Application APP_NO_ERROR,
    appErrorCodeToString APP_NO_ERROR⟩

/-- The outcome of one `closeImpl` invocation: the updated state plus the
externally visible effects (cancel code handed to `cancelAllAppCallbacks` and
to the terminal connection callback, drain-timer scheduling with its duration,
synchronous drain expiry, and whether a final close packet write was
attempted). -/
structure CloseResult where
  state : Conn
  cancelCodeDelivered : Option QuicError
  drainTimerScheduled : Bool
  drainDuration : Option Nat
  drainExpiredSynchronously : Bool
  sentCloseImmediately : Bool
deriving DecidableEq, Repr

/-- `QuicTransportBase::closeImpl` (QuicTransportBase.cpp:259), step by step:
the Closed-state guard; folding `shouldDrain` into `drainConnection`; setting
`closeState_ = CLOSED`; computing `cancelCode` preferring
`peerConnectionError`, else the provided `errorCode`, else
`LocalErrorCode::NO_ERROR`, then overlaying the unsanitized
`exceptionCloseWhat_` message; classifying reset / abandon / invalid-migration
from the cancel code; persisting `localConnectionError`; cancelling every
timer except drain; stopping the three loopers; cancelling all app callbacks
with the cancel code (which clears the read-callback and byte-event maps);
clearing streams, datagram buffers and pending events; firing the terminal
connection (setup) callback with the cancel code and resetting connection
callbacks; resetting outstandings and dropping the congestion controller;
writing a final close packet iff `sendCloseImmediately` and not reset nor
abandon; arming the drain timer for `kDrainFactor * calculatePTO` iff draining
is still permitted, otherwise firing `drainTimeoutExpired` synchronously. -/
def closeImpl (s : Conn) (errorCode : Option QuicError)
    (drainConnection : Bool) (sendCloseImmediately : Bool) : CloseResult :=
  if s.closeState = CloseState.CLOSED then
    ⟨s, none, false, none, false, false⟩
  else
    let drainConnection := drainConnection && s.transportSettings.shouldDrain
    let s := { s with closeState := CloseState.CLOSED }
    let cancelCode : QuicError :=
      match s.peerConnectionError with
      | some pe => pe
      | none =>
        match errorCode with
        | some ec => ec
        | none => ⟨QuicErrorCode.Loc LocalErrorCode.NO_ERROR,
            localErrorCodeToString LocalErrorCode.NO_ERROR⟩
    let cancelCode : QuicError :=
      match s.exceptionCloseWhat with
      | some what => { cancelCode with message := what }
      | none => cancelCode
    let isReset := cancelCode.code = QuicErrorCode.Loc LocalErrorCode.CONNECTION_RESET
    let isAbandon :=
      cancelCode.code = QuicErrorCode.Loc LocalErrorCode.CONNECTION_ABANDONED
    let isInvalidMigration :=
      cancelCode.code = QuicErrorCode.Transport TransportErrorCode.INVALID_MIGRATION
    let s :=
      match errorCode with
      | some ec => { s with localConnectionError := some ec }
      | none => s
    let s := { s with
      lossTimerArmed := false
      ackTimerArmed := false
      pathValidationTimerArmed := false
      idleTimerArmed := false
      keepaliveTimerArmed := false
      pingTimerArmed := false
      excessWriteTimerArmed := false }
    let s := { s with
      readLooperRunning := false
      peekLooperRunning := false
      writeLooperRunning := false }
    -- cancelAllAppCallbacks(cancelCode): every registered read / byte-event
    -- callback is errored with cancelCode and the registries are cleared.
    let s := { s with
      readCallbacks := []
      deliveryCallbacks := []
      txCallbacks := [] }
    -- closeTransport(); clearOpenStreams(); clear datagram buffers; reset
    -- pending events; clear ack sets.
    let s := { s with
      streams := []
      deliverableStreams := []
      txStreams := []
      datagramReadBufferLen := 0
      datagramWriteBufferLen := 0
      pendingStopSendingFrames := [] }
    -- processConnection(Setup)Callbacks(cancelCode); resetConnectionCallbacks
    let s := { s with connCallbackSet := false, connSetupCallbackSet := false }
    -- outstandings.reset(); drop the congestion controller
    let s := { s with outstandingPacketCount := 0, congestionControllerSet := false }
    let sendCloseImmediately := sendCloseImmediately && !isReset && !isAbandon
    let drainConnection :=
      drainConnection && !isReset && !isAbandon && !isInvalidMigration
    if drainConnection then
      ⟨{ s with drainTimerArmed := true }, some cancelCode, true,
        some (kDrainFactor * calculatePTO s), false, sendCloseImmediately⟩
    else
      ⟨drainTimeoutExpired s, some cancelCode, false, none, true,
        sendCloseImmediately⟩

/-- `QuicTransportBase::close` (QuicTransportBase.cpp:205): resets connection
callbacks, substitutes the generic application error and invokes `closeImpl`
with draining enabled. -/
def close (s : Conn) (errorCode : Option QuicError) : CloseResult :=
  let s := { s with connCallbackSet := false, connSetupCallbackSet := false }
  let errorCode := some (maybeSetGenericAppError errorCode)
  closeImpl s errorCode true true

/-- `QuicTransportBase::closeNow` (QuicTransportBase.cpp:217): invokes
`closeImpl` without draining, then — if a drain timeout is still scheduled
(from a previous close) — cancels it and expires it synchronously. -/
def closeNow (s : Conn) (errorCode : Option QuicError) : CloseResult :=
  let errorCode := some (maybeSetGenericAppError errorCode)
  let r := closeImpl s errorCode false true
  if r.state.drainTimerArmed then
    { r with state := drainTimeoutExpired { r.state with drainTimerArmed := false } }
  else r

/-!  ## Byte events: `registerByteEventCallback`,
`cancelByteEventCallbacksForStream`  -/

/-- `getByteEventMap(type)`: selects the delivery (ACK) or TX map. -/
def getByteEventMap (s : Conn) (t : BEType) : List (Nat × List ByteEventDetail) :=
  match t with
  | .ACK => s.deliveryCallbacks
  | .TX => s.txCallbacks

/-- Writes back the map selected by `getByteEventMap`. -/
def setByteEventMap (s : Conn) (t : BEType)
    (m : List (Nat × List ByteEventDetail)) : Conn :=
  match t with
  | .ACK => { s with deliveryCallbacks := m }
  | .TX => { s with txCallbacks := m }

/-- `streamManager->removeDeliverable(id)` / `removeTx(id)`, selected by the
byte-event type. -/
def removeDeliverableOrTx (s : Conn) (t : BEType) (id : Nat) : Conn :=
  match t with
  | .ACK => { s with deliverableStreams := eraseId s.deliverableStreams id }
  | .TX => { s with txStreams := eraseId s.txStreams id }

/-- The `std::upper_bound` position used by `registerByteEventCallback`
(QuicTransportBase.cpp:2404) on an offset-sorted queue: the entries at or
before the insertion point are exactly those whose offset is at most the
requested offset. -/
def byteEventsUpTo (q : List ByteEventDetail) (offset : Nat) :
    List ByteEventDetail :=
  q.takeWhile (fun p => decide (p.offset ≤ offset))

/-- The entries after the insertion point: those the sorted insert keeps to
the right of the new entry. -/
def byteEventsAfter (q : List ByteEventDetail) (offset : Nat) :
    List ByteEventDetail :=
  q.dropWhile (fun p => decide (p.offset ≤ offset))

deriving instance DecidableEq for Except

/-- The outcome of one `registerByteEventCallback` invocation: result value,
updated state, the `onByteEventRegistered` notification (if any), and whether
an async fire was scheduled because the requested offset was already
reached. -/
structure RegisterResult where
  result : Except LocalErrorCode Unit
  state : Conn
  registeredNotified : Option (Nat × Nat × BEType)
  asyncFireScheduled : Bool
deriving DecidableEq, Repr

/-- `QuicTransportBase::registerByteEventCallback`
(QuicTransportBase.cpp:2374): direction / close-state / stream-existence
guards; success without any effect for a null callback; sorted insert into
the per-(type, stream) queue at the `std::upper_bound` position unless an
identical (offset, callback) entry already exists before that position, which
is rejected with INVALID_OPERATION; `onByteEventRegistered` notification; and
scheduling of an async fire when the largest deliverable (ACK) or transmitted
(TX) offset already reaches the requested offset. -/
def registerByteEventCallback (s : Conn) (t : BEType) (id : Nat)
    (offset : Nat) (cb : Option Nat) : RegisterResult :=
  if isReceivingStream s.nodeType id then
    ⟨Except.error LocalErrorCode.INVALID_OPERATION, s, none, false⟩
  else if s.closeState ≠ CloseState.OPEN then
    ⟨Except.error LocalErrorCode.CONNECTION_CLOSED, s, none, false⟩
  else if ¬ streamExists s id then
    ⟨Except.error LocalErrorCode.STREAM_NOT_EXISTS, s, none, false⟩
  else
    match cb with
    | none => ⟨Except.ok (), s, none, false⟩
    | some c =>
      let byteEventMap := getByteEventMap s t
      let inserted : Except LocalErrorCode (List (Nat × List ByteEventDetail)) :=
        match lookupQ byteEventMap id with
        | none => Except.ok (byteEventMap ++ [(id, [⟨offset, c⟩])])
        | some q =>
          let before := byteEventsUpTo q offset
          if before.any (fun p => p.offset == offset && p.callback == c) then
            Except.error LocalErrorCode.INVALID_OPERATION
          else
            Except.ok (updateQ byteEventMap id
              (before ++ ⟨offset, c⟩ :: byteEventsAfter q offset))
      match inserted with
      | Except.error e => ⟨Except.error e, s, none, false⟩
      | Except.ok m =>
        let s := setByteEventMap s t m
        let maxOffsetReady : Option Nat :=
          match lookupQ s.streams id with
          | none => none
          | some stream =>
            match t with
            | .ACK => stream.largestDeliverableOffset
            | .TX => stream.largestWriteOffsetTxed
        let fire :=
          match maxOffsetReady with
          | some m' => offset ≤ m'
          | none => false
        ⟨Except.ok (), s, some (id, offset, t), fire⟩

/-- `QuicTransportBase::registerDeliveryCallback`
(QuicTransportBase.cpp:2358): an ACK byte-event registration. -/
def registerDeliveryCallback (s : Conn) (id : Nat) (offset : Nat)
    (cb : Option Nat) : RegisterResult :=
  registerByteEventCallback s BEType.ACK id offset cb

/-- `QuicTransportBase::registerTxCallback` (QuicTransportBase.cpp:2366): a TX
byte-event registration. -/
def registerTxCallback (s : Conn) (id : Nat) (offset : Nat)
    (cb : Option Nat) : RegisterResult :=
  registerByteEventCallback s BEType.TX id offset cb

/-- The outcome of one `cancelByteEventCallbacksForStream` invocation: the
updated state and the emitted `onByteEventCanceled` notifications, in order.
Callback invocation is modelled as event emission (the in-callback
close-the-socket re-entrancy escape hatch of the source loop cannot trigger in
a model whose callbacks do not mutate the transport). -/
structure CancelResult where
  state : Conn
  canceledNotified : List (Nat × Nat × BEType)
deriving DecidableEq, Repr

/-- The pop condition of the cancellation loop (QuicTransportBase.cpp:1210):
pop while no offset bound was given or the entry's offset is below it. -/
def cancelShouldPop (offset : Option Nat) (p : ByteEventDetail) : Bool :=
  match offset with
  | none => true
  | some o => decide (p.offset < o)

/-- `QuicTransportBase::cancelByteEventCallbacksForStream`
(QuicTransportBase.cpp:1181): no-op for receiving streams; when the stream has
no queue, only clears the deliverable / tx set entry; otherwise pops queue
entries from the front while their offset is below the given bound (all of
them when no bound is given), emitting `onByteEventCanceled` for each, and —
when the queue empties — removes the stream from the deliverable / tx set and
erases its map entry. -/
def cancelByteEventCallbacksForStream (s : Conn) (t : BEType) (id : Nat)
    (offset : Option Nat) : CancelResult :=
  if isReceivingStream s.nodeType id then
    ⟨s, []⟩
  else
    let byteEventMap := getByteEventMap s t
    match lookupQ byteEventMap id with
    | none => ⟨removeDeliverableOrTx s t id, []⟩
    | some streamByteEvents =>
      let popped := streamByteEvents.takeWhile (cancelShouldPop offset)
      let remaining := streamByteEvents.dropWhile (cancelShouldPop offset)
      let canceled := popped.map (fun p => (id, p.offset, t))
      if remaining.isEmpty then
        let s := removeDeliverableOrTx s t id
        ⟨setByteEventMap s t (eraseQ (getByteEventMap s t) id), canceled⟩
      else
        ⟨setByteEventMap s t (updateQ byteEventMap id remaining), canceled⟩

/-!  ## Read callbacks: `setReadCallback`, `setReadCallbackInternal`,
`stopSending`  -/

/-- `QuicTransportBase::stopSending` (QuicTransportBase.cpp:801): direction /
close-state / existence guards; skipped when ingress is already closed;
optionally drops ingress; enqueues a STOP_SENDING frame and reruns the write
looper. -/
def stopSending (s : Conn) (id : Nat) (error : Nat) :
    Except LocalErrorCode Unit × Conn :=
  if isSendingStream s.nodeType id then
    (Except.error LocalErrorCode.INVALID_OPERATION, s)
  else if s.closeState ≠ CloseState.OPEN then
    (Except.error LocalErrorCode.CONNECTION_CLOSED, s)
  else
    match lookupQ s.streams id with
    | none => (Except.error LocalErrorCode.STREAM_NOT_EXISTS, s)
    | some stream =>
      if stream.recvState = StreamRecvState.Closed_ then
        (Except.ok (), s)
      else
        let s :=
          if s.transportSettings.dropIngressOnStopSending then
            { s with ingressDropped := s.ingressDropped ++ [id] }
          else s
        (Except.ok (),
          { s with pendingStopSendingFrames :=
              s.pendingStopSendingFrames ++ [(id, error)] })

/-- `QuicTransportBase::setReadCallbackInternal`
(QuicTransportBase.cpp:766): rejects an initial registration with a null
callback; rejects a non-null callback once the registered callback has been
set to null; otherwise stores the callback, and — when the callback is being
set to null with an application error code — triggers `stopSending`. -/
def setReadCallbackInternal (s : Conn) (id : Nat) (cb : Option Nat)
    (err : Option Nat) : Except LocalErrorCode Unit × Conn :=
  match lookupQ s.readCallbacks id with
  | none =>
    if cb.isNone then
      (Except.error LocalErrorCode.INVALID_OPERATION, s)
    else
      -- emplace(id, ReadCallbackData(cb)); the just-stored callback is
      -- non-null, so the null-reregistration branch below cannot fire and
      -- the assignment stores the same value.
      (Except.ok (),
        { s with readCallbacks := s.readCallbacks ++ [(id, ⟨cb, true, false⟩)] })
  | some rcd =>
    if rcd.readCb.isNone && cb.isSome then
      -- It has already been set to nullptr: unsetting is not allowed.
      (Except.error LocalErrorCode.INVALID_OPERATION, s)
    else
      let s := { s with
        readCallbacks := updateQ s.readCallbacks id { rcd with readCb := cb } }
      if cb.isNone then
        match err with
        | some e => stopSending s id e
        | none => (Except.ok (), s)
      else (Except.ok (), s)

/-- `QuicTransportBase::setReadCallback` (QuicTransportBase.cpp:731):
direction, close-state and existence guards, then
`setReadCallbackInternal`. -/
def setReadCallback (s : Conn) (id : Nat) (cb : Option Nat)
    (err : Option Nat) : Except LocalErrorCode Unit × Conn :=
  if isSendingStream s.nodeType id then
    (Except.error LocalErrorCode.INVALID_OPERATION, s)
  else if s.closeState ≠ CloseState.OPEN then
    (Except.error LocalErrorCode.CONNECTION_CLOSED, s)
  else if ¬ streamExists s id then
    (Except.error LocalErrorCode.STREAM_NOT_EXISTS, s)
  else setReadCallbackInternal s id cb err

/-!  ## ECN validation: `validateECNState`  -/

/-- The socket TOS byte (`conn_->socketTos.value`), spec section 6:
`dscp << 2 | ecn`. -/
def socketTosValue (s : Conn) : Nat :=
  s.socketTosDscp * 4 + s.socketTosEcn

/-- `QuicTransportBase::addPacketProcessor` (QuicTransportBase.cpp:3458),
restricted to the only processor kind the verified code installs: pushes an
`EcnL4sTracker` onto `conn_->packetProcessors`. -/
def addTrackerPacketProcessor (s : Conn) : Conn :=
  { s with packetProcessorTrackerCount := s.packetProcessorTrackerCount + 1 }

/-- The trailing FailedValidation block of `validateECNState`
(QuicTransportBase.cpp:3992): when the state (after validation) is
FailedValidation, zero the ecn nibble of the socket TOS, push the updated TOS
value to the socket, and — when an `EcnL4sTracker` is installed — remove it
from the packet processors and reset it. -/
def applyEcnFailureCleanup (s1 : Conn) : Conn :=
  if s1.ecnState = ECNState.FailedValidation then
    let s2 := { s1 with socketTosEcn := 0 }
    let s2 := { s2 with tosHistory := s2.tosHistory ++ [socketTosValue s2] }
    if s2.ecnL4sTrackerSet then
      { s2 with packetProcessorTrackerCount := 0, ecnL4sTrackerSet := false }
    else s2
  else s1

/-- `QuicTransportBase::validateECNState` (QuicTransportBase.cpp:3924): no-op
before attempting or after failure, and while fewer than 10 ack-eliciting
app-data packets were expected to carry marks; otherwise counts the echoed
marks for the attempted codepoint (CE + ECT0 for classic ECN, CE + ECT1 for
L4S), requires the count in [minimum expected, total packets sent] and zero
echoes of the other codepoint, moving to the Validated state on success (for
L4S, installing the `EcnL4sTracker` packet processor on the first success)
and to FailedValidation otherwise.  The trailing FailedValidation handling is
`applyEcnFailureCleanup`. -/
def validateECNState (s : Conn) : Conn :=
  if s.ecnState = ECNState.NotAttempted ∨ s.ecnState = ECNState.FailedValidation then
    s
  else if s.minimumExpectedEcnMarksEchoed < 10 then
    s
  else
    let minExpectedMarkedPacketsCount := s.minimumExpectedEcnMarksEchoed
    let maxExpectedMarkedPacketsCount := s.totalPacketsSent
    let s1 :=
      if s.ecnState = ECNState.AttemptingECN ∨ s.ecnState = ECNState.ValidatedECN then
        -- Check the number of marks seen (ECT0 + CE).  ECT1 should be zero.
        let markedPacketCount := s.ecnCECountEchoed + s.ecnECT0CountEchoed
        if minExpectedMarkedPacketsCount ≤ markedPacketCount ∧
            markedPacketCount ≤ maxExpectedMarkedPacketsCount ∧
            s.ecnECT1CountEchoed = 0 then
          { s with ecnState := ECNState.ValidatedECN }
        else
          { s with ecnState := ECNState.FailedValidation }
      else
        -- AttemptingL4S or ValidatedL4S:
        -- check the number of marks seen (ECT1 + CE).  ECT0 should be zero.
        let markedPacketCount := s.ecnCECountEchoed + s.ecnECT1CountEchoed
        if minExpectedMarkedPacketsCount ≤ markedPacketCount ∧
            markedPacketCount ≤ maxExpectedMarkedPacketsCount ∧
            s.ecnECT0CountEchoed = 0 then
          if s.ecnState ≠ ECNState.ValidatedL4S then
            let s' :=
              if ¬ s.ecnL4sTrackerSet then
                addTrackerPacketProcessor { s with ecnL4sTrackerSet := true }
              else s
            { s' with ecnState := ECNState.ValidatedL4S }
          else s
        else
          { s with ecnState := ECNState.FailedValidation }
    applyEcnFailureCleanup s1

/-!  ## Sortedness of byte-event queues  -/

/-- A byte-event queue is sorted when its offsets are non-decreasing. -/
def QueueSorted (q : List ByteEventDetail) : Prop :=
  q.Pairwise (fun a b => a.offset ≤ b.offset)

/-- Every byte-event queue of both maps of the connection is sorted by
offset. -/
def AllQueuesSorted (s : Conn) : Prop :=
  (∀ p ∈ s.deliveryCallbacks, QueueSorted p.2) ∧
  (∀ p ∈ s.txCallbacks, QueueSorted p.2)

instance (q : List ByteEventDetail) : Decidable (QueueSorted q) :=
  decidable_of_iff
    (List.Pairwise (fun a b : ByteEventDetail => a.offset ≤ b.offset) q)
    (by rw [QueueSorted])

instance (s : Conn) : Decidable (AllQueuesSorted s) :=
  decidable_of_iff ((∀ p ∈ s.deliveryCallbacks, QueueSorted p.2) ∧
    (∀ p ∈ s.txCallbacks, QueueSorted p.2)) (by rw [AllQueuesSorted])

/-!  ## Concrete states for witnesses and counterexamples  -/

/-- A concrete healthy open client connection owning the client-initiated
bidirectional stream 0, used as the template of the concrete states below. -/
def baseConn : Conn where
  nodeType := NodeType.Client
  closeState := CloseState.OPEN
  transportSettings := ⟨true, false, 1000, 0⟩
  peerConnectionError := none
  localConnectionError := none
  exceptionCloseWhat := none
  sumCurStreamBufferLen := 0
  sendConnFlowControlBytes := 500
  congestionControlWritableBytes := 100
  srtt := 100
  rttvar := 10
  maxAckDelay := 25
  granularity := 5
  streams := [(0, ⟨StreamRecvState.Open_, 300, none, none⟩)]
  deliverableStreams := []
  txStreams := []
  readCallbacks := []
  deliveryCallbacks := []
  txCallbacks := []
  connCallbackSet := true
  connSetupCallbackSet := true
  pendingStopSendingFrames := []
  ingressDropped := []
  lossTimerArmed := true
  ackTimerArmed := false
  pathValidationTimerArmed := false
  idleTimerArmed := true
  keepaliveTimerArmed := false
  pingTimerArmed := false
  excessWriteTimerArmed := false
  drainTimerArmed := false
  readLooperRunning := true
  peekLooperRunning := false
  writeLooperRunning := true
  socketBound := true
  connectionBound := true
  outstandingPacketCount := 3
  congestionControllerSet := true
  datagramReadBufferLen := 0
  datagramWriteBufferLen := 0
  transportReadyNotified := true
  ecnState := ECNState.NotAttempted
  minimumExpectedEcnMarksEchoed := 0
  totalPacketsSent := 0
  ecnCECountEchoed := 0
  ecnECT0CountEchoed := 0
  ecnECT1CountEchoed := 0
  socketTosDscp := 0
  socketTosEcn := 0
  tosHistory := []
  ecnL4sTrackerSet := false
  packetProcessorTrackerCount := 0

/-- An open connection carrying both a peer connection error and an
unsanitized exception message. -/
def c1state : Conn :=
  { baseConn with
    peerConnectionError := some
      ⟨QuicErrorCode.Transport TransportErrorCode.PROTOCOL_VIOLATION, "peer close"⟩
    exceptionCloseWhat := some "unsanitized what" }

/-- An open connection whose queues for stream 0 already hold delivery and TX
entries. -/
def c2state : Conn :=
  { baseConn with
    deliveryCallbacks := [(0, [⟨3, 7⟩, ⟨5, 7⟩])]
    txCallbacks := [(0, [⟨4, 9⟩])] }

/-- An open connection whose read callback for stream 0 has already been set
to null. -/
def c3state : Conn :=
  { baseConn with readCallbacks := [(0, ⟨none, true, false⟩)] }

/-- An already-closed connection whose drain timer is still scheduled and
whose UDP socket is still bound (the post-close drain period). -/
def c5state : Conn :=
  { baseConn with
    closeState := CloseState.CLOSED
    lossTimerArmed := false
    idleTimerArmed := false
    drainTimerArmed := true
    readLooperRunning := false
    writeLooperRunning := false
    readCallbacks := []
    streams := []
    outstandingPacketCount := 0
    congestionControllerSet := false
    connCallbackSet := false
    connSetupCallbackSet := false }

/-- An open connection with an existing delivery-queue entry (offset 5,
callback 7) for stream 0. -/
def c6state : Conn :=
  { baseConn with deliveryCallbacks := [(0, [⟨5, 7⟩])] }

/-- An open connection attempting L4S validation that has echoed an ECT0 mark
(which must fail validation), with a nonzero TOS and no installed tracker. -/
def c7state : Conn :=
  { baseConn with
    ecnState := ECNState.AttemptingL4S
    minimumExpectedEcnMarksEchoed := 10
    totalPacketsSent := 20
    ecnCECountEchoed := 12
    ecnECT0CountEchoed := 1
    ecnECT1CountEchoed := 0
    socketTosDscp := 1
    socketTosEcn := 1 }

/-- An open connection validating L4S successfully with the tracker already
installed. -/
def c7l4sState : Conn :=
  { baseConn with
    ecnState := ECNState.AttemptingL4S
    minimumExpectedEcnMarksEchoed := 10
    totalPacketsSent := 20
    ecnCECountEchoed := 12
    ecnECT0CountEchoed := 0
    ecnECT1CountEchoed := 3
    socketTosDscp := 1
    socketTosEcn := 1
    ecnL4sTrackerSet := true
    packetProcessorTrackerCount := 1 }

/-- A connection buffering more stream bytes than the configured total buffer
space. -/
def c9state : Conn :=
  { baseConn with
    sumCurStreamBufferLen := 5
    transportSettings := { baseConn.transportSettings with totalBufferSpaceAvailable := 3 } }

/-- An open client connection owning the client-initiated unidirectional
(sending) stream 2. -/
def c10state : Conn :=
  { baseConn with
    streams := [(2, ⟨StreamRecvState.Open_, 300, some 10, some 12⟩)] }

/-!  ## Theorems  -/

theorem isSendingStream_not_receiving {n : NodeType} {id : Nat}
    (h : isSendingStream n id = true) : isReceivingStream n id = false := by
  cases n <;> simp only [isSendingStream, isReceivingStream,
    decide_eq_true_eq, decide_eq_false_iff_not] at h ⊢ <;> omega

/-- Claim C8: for every stream, `maxWritableOnStream` is at most
`maxWritableOnConn`, because the stream bound is the minimum of the stream's
flow-control bytes and the connection bound. -/
theorem quic_C8 (s : Conn) (stream : StreamInfo) :
    maxWritableOnStream s stream ≤ maxWritableOnConn s := by
  unfold maxWritableOnStream
  exact min_le_right _ _

/-- Claim C9 (counterexample): when more is buffered than the total buffer
budget, `bufferSpaceAvailable() + sumCurStreamBufferLen` strictly exceeds
`totalBufferSpaceAvailable`, refuting the claimed unconditional inequality. -/
theorem quic_C9_counterexample :
    ¬ (bufferSpaceAvailable c9state + c9state.sumCurStreamBufferLen ≤
        c9state.transportSettings.totalBufferSpaceAvailable) := by
  decide

/-- Claim C9 (amended): `bufferSpaceAvailable() + sumCurStreamBufferLen =
totalBufferSpaceAvailable` whenever `sumCurStreamBufferLen` is at most
`totalBufferSpaceAvailable`; when it exceeds the budget, the function
returns exactly 0. -/
theorem quic_C9 (s : Conn) :
    (s.sumCurStreamBufferLen ≤ s.transportSettings.totalBufferSpaceAvailable →
      bufferSpaceAvailable s + s.sumCurStreamBufferLen =
        s.transportSettings.totalBufferSpaceAvailable) ∧
    (s.transportSettings.totalBufferSpaceAvailable < s.sumCurStreamBufferLen →
      bufferSpaceAvailable s = 0) := by
  unfold bufferSpaceAvailable
  dsimp only
  refine ⟨fun h => ?_, fun h => ?_⟩ <;> split <;> omega

theorem quic_C9_witness :
    bufferSpaceAvailable baseConn + baseConn.sumCurStreamBufferLen =
      baseConn.transportSettings.totalBufferSpaceAvailable :=
  (quic_C9 baseConn).1 (by decide)

/-- Claim C5 (counterexample): on an already-Closed connection whose drain
timer is still scheduled, `closeNow` does not leave the state unchanged — it
cancels the drain timer, closes the UDP socket and unbinds the connection. -/
theorem quic_C5_counterexample :
    c5state.closeState = CloseState.CLOSED ∧
    (closeNow c5state none).state ≠ c5state ∧
    (closeNow c5state none).state.socketBound = false := by
  decide

/-- Claim C5 (amended): invoking `closeImpl` when closeState is already
Closed returns immediately with the state unchanged and no effects, so
closing through `closeImpl` is idempotent and safe to re-enter from any
callback; `close` on an already-Closed connection still resets the connection
callbacks, and `closeNow` additionally cancels a still-scheduled drain timer
and synchronously expires it, closing the UDP socket and unbinding the
connection. -/
theorem quic_C5 (s : Conn) (e : Option QuicError) (dc sci : Bool)
    (h : s.closeState = CloseState.CLOSED) :
    closeImpl s e dc sci = ⟨s, none, false, none, false, false⟩ ∧
    (close s e).state =
      { s with connCallbackSet := false, connSetupCallbackSet := false } ∧
    (closeNow s e).state =
      (if s.drainTimerArmed then
        drainTimeoutExpired { s with drainTimerArmed := false }
      else s) := by
  refine ⟨?_, ?_, ?_⟩
  · unfold closeImpl
    simp [h]
  · unfold close closeImpl
    simp [h]
  · unfold closeNow closeImpl
    by_cases hd : s.drainTimerArmed <;> simp [h, hd]

theorem quic_C5_witness :
    closeImpl c5state none true true =
      ⟨c5state, none, false, none, false, false⟩ :=
  (quic_C5 c5state none true true (by decide)).1

/-- Claim C10: registering a byte event with a null callback pointer on an
open connection and an existing sending-direction stream returns success,
leaves the state (in particular both byte-event maps) unchanged, notifies no
`onByteEventRegistered`, and schedules no async fire. -/
theorem quic_C10 (s : Conn) (t : BEType) (id : Nat) (offset : Nat)
    (hsend : isSendingStream s.nodeType id = true)
    (hopen : s.closeState = CloseState.OPEN)
    (hex : streamExists s id = true) :
    registerByteEventCallback s t id offset none =
      ⟨Except.ok (), s, none, false⟩ := by
  unfold registerByteEventCallback
  simp [isSendingStream_not_receiving hsend, hopen, hex]

theorem quic_C10_witness :
    registerByteEventCallback c10state BEType.ACK 2 5 none =
      ⟨Except.ok (), c10state, none, false⟩ :=
  quic_C10 c10state BEType.ACK 2 5 (by decide) (by decide) (by decide)

/-- Claim C3 (counterexample): on an open connection with an existing
receiving-capable stream whose registered read callback has already been set
to null, calling `setReadCallback` again with a null callback does NOT return
INVALID_OPERATION — it succeeds. -/
theorem quic_C3_counterexample :
    (setReadCallback c3state 0 none none).1 ≠
      Except.error LocalErrorCode.INVALID_OPERATION ∧
    (setReadCallback c3state 0 none none).1 = Except.ok () := by
  decide

/-- Claim C3 (amended): `setReadCallback` returns INVALID_OPERATION when the
stream has sending directionality, and (for a non-sending stream on an open
connection with an existing stream) when a null callback is passed with no
existing read-callback entry (null-for-initial-set), and when a non-null
callback is passed after the registered callback has already been set to null
(re-registration after unset); passing a null callback when the registered
callback is already null succeeds for any error-code argument — when an error
code is provided the call routes through `stopSending`, whose guards have
already been satisfied, so it still returns success (possibly enqueueing a
STOP_SENDING frame).  It returns CONNECTION_CLOSED for a non-sending stream
when closeState is not Open. -/
theorem quic_C3 (s : Conn) (id : Nat) (cb : Option Nat) (err : Option Nat) :
    (isSendingStream s.nodeType id = true →
      (setReadCallback s id cb err).1 =
        Except.error LocalErrorCode.INVALID_OPERATION) ∧
    (isSendingStream s.nodeType id = false → s.closeState ≠ CloseState.OPEN →
      (setReadCallback s id cb err).1 =
        Except.error LocalErrorCode.CONNECTION_CLOSED) ∧
    (isSendingStream s.nodeType id = false → s.closeState = CloseState.OPEN →
      streamExists s id = true → lookupQ s.readCallbacks id = none →
      (setReadCallback s id none err).1 =
        Except.error LocalErrorCode.INVALID_OPERATION) ∧
    (∀ rcd c, isSendingStream s.nodeType id = false →
      s.closeState = CloseState.OPEN → streamExists s id = true →
      lookupQ s.readCallbacks id = some rcd → rcd.readCb = none →
      (setReadCallback s id (some c) err).1 =
        Except.error LocalErrorCode.INVALID_OPERATION) ∧
    (∀ rcd, isSendingStream s.nodeType id = false →
      s.closeState = CloseState.OPEN → streamExists s id = true →
      lookupQ s.readCallbacks id = some rcd → rcd.readCb = none →
      (setReadCallback s id none err).1 = Except.ok ()) := by
  refine ⟨fun hs => ?_, fun hs hc => ?_, fun hs hc hex hrc => ?_,
    fun rcd c hs hc hex hrc hnull => ?_, fun rcd hs hc hex hrc hnull => ?_⟩
  · unfold setReadCallback
    simp [hs]
  · unfold setReadCallback
    simp [hs, hc]
  · unfold setReadCallback setReadCallbackInternal
    simp [hs, hc, hex, hrc]
  · unfold setReadCallback setReadCallbackInternal
    simp [hs, hc, hex, hrc, hnull]
  · unfold setReadCallback setReadCallbackInternal stopSending
    cases err with
    | none => simp [hs, hc, hex, hrc, hnull]
    | some e =>
      have hst := hex
      unfold streamExists at hst
      cases hls : lookupQ s.streams id with
      | none =>
        rw [hls] at hst
        simp at hst
      | some st =>
        cases hrecv : st.recvState <;>
          simp [hs, hc, hex, hrc, hnull, hls, hrecv]

theorem quic_C3_witness :
    (setReadCallback c3state 0 (some 7) none).1 =
      Except.error LocalErrorCode.INVALID_OPERATION ∧
    (setReadCallback c3state 0 none (some 7)).1 = Except.ok () :=
  ⟨(quic_C3 c3state 0 (some 7) none).2.2.2.1 ⟨none, true, false⟩ 7
      (by decide) (by decide) (by decide) (by decide) (by decide),
   (quic_C3 c3state 0 none (some 7)).2.2.2.2 ⟨none, true, false⟩
      (by decide) (by decide) (by decide) (by decide) (by decide)⟩

/-- Claim C1: when `closeImpl` runs on a connection that is not yet Closed,
the cancel code delivered to application callbacks is `peerConnectionError`
when set, else the provided error code when one was passed, else
`LocalErrorCode::NO_ERROR`; and whenever `exceptionCloseWhat_` holds a
message, that unsanitized message replaces the cancel code's message before
the callbacks are invoked. -/
theorem quic_C1 (s : Conn) (e : Option QuicError) (dc sci : Bool)
    (h : s.closeState ≠ CloseState.CLOSED) :
    (closeImpl s e dc sci).cancelCodeDelivered = some
      { code :=
          match s.peerConnectionError with
          | some pe => pe.code
          | none =>
            match e with
            | some ec => ec.code
            | none => QuicErrorCode.Loc LocalErrorCode.NO_ERROR,
        message :=
          match s.exceptionCloseWhat with
          | some what => what
          | none =>
            match s.peerConnectionError with
            | some pe => pe.message
            | none =>
              match e with
              | some ec => ec.message
              | none => localErrorCodeToString LocalErrorCode.NO_ERROR } := by
  unfold closeImpl
  rw [if_neg h]
  cases s.peerConnectionError <;> cases e <;> cases s.exceptionCloseWhat <;>
    dsimp only <;> split <;> rfl

theorem quic_C1_witness :
    (closeImpl c1state none true true).cancelCodeDelivered = some
      ⟨QuicErrorCode.Transport TransportErrorCode.PROTOCOL_VIOLATION,
        "unsanitized what"⟩ := by
  have h := quic_C1 c1state none true true (by decide)
  rw [h]
  decide

theorem lookupQ_mem {α : Type} {m : List (Nat × α)} {id : Nat} {v : α}
    (h : lookupQ m id = some v) : (id, v) ∈ m := by
  induction m with
  | nil => simp [lookupQ] at h
  | cons p rest ih =>
    obtain ⟨k, w⟩ := p
    rw [lookupQ] at h
    by_cases hk : k = id
    · rw [if_pos hk] at h
      subst hk
      cases h
      exact List.mem_cons_self _ _
    · rw [if_neg hk] at h
      exact List.mem_cons_of_mem _ (ih h)

theorem mem_updateQ {α : Type} {m : List (Nat × α)} {id : Nat} {v : α}
    {p : Nat × α} (h : p ∈ updateQ m id v) : p.2 = v ∨ p ∈ m := by
  induction m with
  | nil => simp [updateQ] at h
  | cons q rest ih =>
    obtain ⟨k, w⟩ := q
    rw [updateQ] at h
    by_cases hk : k = id
    · rw [if_pos hk] at h
      rcases List.mem_cons.1 h with h' | h'
      · left
        rw [h']
      · right
        exact List.mem_cons_of_mem _ h'
    · rw [if_neg hk] at h
      rcases List.mem_cons.1 h with h' | h'
      · right
        rw [h']
        exact List.mem_cons_self _ _
      · rcases ih h' with h'' | h''
        · exact Or.inl h''
        · exact Or.inr (List.mem_cons_of_mem _ h'')

theorem mem_eraseQ {α : Type} {m : List (Nat × α)} {id : Nat} {p : Nat × α}
    (h : p ∈ eraseQ m id) : p ∈ m := by
  induction m with
  | nil => simp [eraseQ] at h
  | cons q rest ih =>
    obtain ⟨k, w⟩ := q
    rw [eraseQ] at h
    by_cases hk : k = id
    · rw [if_pos hk] at h
      exact List.mem_cons_of_mem _ h
    · rw [if_neg hk] at h
      rcases List.mem_cons.1 h with h' | h'
      · rw [h']
        exact List.mem_cons_self _ _
      · exact List.mem_cons_of_mem _ (ih h')

theorem queueSorted_dropWhile {q : List ByteEventDetail}
    (pd : ByteEventDetail → Bool) (h : QueueSorted q) :
    QueueSorted (q.dropWhile pd) := by
  induction q with
  | nil => exact h
  | cons d rest ih =>
    rw [QueueSorted, List.pairwise_cons] at h
    rw [List.dropWhile_cons]
    by_cases hd : pd d
    · rw [if_pos hd]
      exact ih h.2
    · rw [if_neg hd]
      exact List.pairwise_cons.2 h

theorem mem_takeWhile_sub {α : Type} {pd : α → Bool} {l : List α} {a : α}
    (h : a ∈ l.takeWhile pd) : a ∈ l := by
  induction l with
  | nil => simp [List.takeWhile] at h
  | cons b rest ih =>
    rw [List.takeWhile_cons] at h
    by_cases hb : pd b
    · rw [if_pos hb] at h
      rcases List.mem_cons.1 h with h' | h'
      · rw [h']
        exact List.mem_cons_self _ _
      · exact List.mem_cons_of_mem _ (ih h')
    · rw [if_neg hb] at h
      cases h

theorem mem_dropWhile_sub {α : Type} {pd : α → Bool} {l : List α} {a : α}
    (h : a ∈ l.dropWhile pd) : a ∈ l := by
  induction l with
  | nil => simp [List.dropWhile] at h
  | cons b rest ih =>
    rw [List.dropWhile_cons] at h
    by_cases hb : pd b
    · rw [if_pos hb] at h
      exact List.mem_cons_of_mem _ (ih h)
    · rw [if_neg hb] at h
      exact h

theorem queueSorted_insert {q : List ByteEventDetail} (offset c : Nat)
    (h : QueueSorted q) :
    QueueSorted (byteEventsUpTo q offset ++
      ⟨offset, c⟩ :: byteEventsAfter q offset) := by
  induction q with
  | nil =>
    simp [byteEventsUpTo, byteEventsAfter, QueueSorted]
  | cons d rest ih =>
    rw [QueueSorted, List.pairwise_cons] at h
    obtain ⟨hhead, hrest⟩ := h
    unfold byteEventsUpTo byteEventsAfter at ih ⊢
    rw [List.takeWhile_cons, List.dropWhile_cons]
    by_cases hd : d.offset ≤ offset
    · have hdb : decide (d.offset ≤ offset) = true := by simpa using hd
      rw [if_pos hdb, if_pos hdb]
      rw [List.cons_append, QueueSorted, List.pairwise_cons]
      refine ⟨fun b hb => ?_, ih hrest⟩
      rcases List.mem_append.1 hb with hb' | hb'
      · exact hhead b (mem_takeWhile_sub hb')
      · rcases List.mem_cons.1 hb' with hb'' | hb''
        · rw [hb'']
          exact hd
        · exact hhead b (mem_dropWhile_sub hb'')
    · have hdb : ¬ decide (d.offset ≤ offset) = true := by simpa using hd
      rw [if_neg hdb, if_neg hdb]
      rw [List.nil_append, QueueSorted, List.pairwise_cons]
      refine ⟨fun b hb => ?_, List.pairwise_cons.2 ⟨hhead, hrest⟩⟩
      rcases List.mem_cons.1 hb with hb' | hb'
      · rw [hb']
        show offset ≤ d.offset
        omega
      · have hdb' := hhead b hb'
        show offset ≤ b.offset
        omega

theorem allQueuesSorted_getByteEventMap {s : Conn} {t : BEType}
    (h : AllQueuesSorted s) : ∀ p ∈ getByteEventMap s t, QueueSorted p.2 := by
  cases t
  · exact h.1
  · exact h.2

theorem allQueuesSorted_setByteEventMap {s : Conn} {t : BEType}
    {m : List (Nat × List ByteEventDetail)} (h : AllQueuesSorted s)
    (hm : ∀ p ∈ m, QueueSorted p.2) :
    AllQueuesSorted (setByteEventMap s t m) := by
  cases t
  · exact ⟨hm, h.2⟩
  · exact ⟨h.1, hm⟩

theorem allQueuesSorted_removeDeliverableOrTx {s : Conn} {t : BEType}
    {id : Nat} (h : AllQueuesSorted s) :
    AllQueuesSorted (removeDeliverableOrTx s t id) := by
  cases t
  · exact ⟨h.1, h.2⟩
  · exact ⟨h.1, h.2⟩

theorem getByteEventMap_removeDeliverableOrTx {s : Conn} {t t' : BEType}
    {id : Nat} :
    getByteEventMap (removeDeliverableOrTx s t' id) t = getByteEventMap s t := by
  cases t <;> cases t' <;> rfl

/-- Claim C2: offset-sortedness of every per-(type, streamId) byte-event
queue is an invariant: it is preserved by every `registerByteEventCallback`
insertion and by every `cancelByteEventCallbacksForStream` removal. -/
theorem quic_C2 (s : Conn) (t : BEType) (id offset : Nat) (cb : Option Nat)
    (coffset : Option Nat) (h : AllQueuesSorted s) :
    AllQueuesSorted (registerByteEventCallback s t id offset cb).state ∧
    AllQueuesSorted (cancelByteEventCallbacksForStream s t id coffset).state := by
  constructor
  · unfold registerByteEventCallback
    by_cases h1 : isReceivingStream s.nodeType id
    · simpa [h1] using h
    · by_cases h2 : s.closeState = CloseState.OPEN
      · by_cases h3 : streamExists s id
        · cases cb with
          | none => simpa [h1, h2, h3] using h
          | some c =>
            cases hl : lookupQ (getByteEventMap s t) id with
            | none =>
              simp [h1, h2, h3, hl]
              refine allQueuesSorted_setByteEventMap h fun p hp => ?_
              rcases List.mem_append.1 hp with hp' | hp'
              · exact allQueuesSorted_getByteEventMap h p hp'
              · rcases List.mem_cons.1 hp' with hp'' | hp''
                · rw [hp'']
                  simp [QueueSorted]
                · cases hp''
            | some q =>
              by_cases h4 : (byteEventsUpTo q offset).any
                  (fun p => p.offset == offset && p.callback == c)
              · simpa [h1, h2, h3, hl, h4] using h
              · simp [h1, h2, h3, hl, h4]
                refine allQueuesSorted_setByteEventMap h fun p hp => ?_
                rcases mem_updateQ hp with hp' | hp'
                · rw [hp']
                  exact queueSorted_insert offset c
                    (allQueuesSorted_getByteEventMap h _ (lookupQ_mem hl))
                · exact allQueuesSorted_getByteEventMap h p hp'
        · simpa [h1, h2, h3] using h
      · simpa [h1, h2] using h
  · unfold cancelByteEventCallbacksForStream
    by_cases h1 : isReceivingStream s.nodeType id
    · simpa [h1] using h
    · cases hl : lookupQ (getByteEventMap s t) id with
      | none =>
        simp [h1, hl]
        exact allQueuesSorted_removeDeliverableOrTx h
      | some q =>
        by_cases h2 : (q.dropWhile (cancelShouldPop coffset)).isEmpty
        · simp [h1, hl, h2]
          refine allQueuesSorted_setByteEventMap
            (allQueuesSorted_removeDeliverableOrTx h) fun p hp => ?_
          rw [getByteEventMap_removeDeliverableOrTx] at hp
          exact allQueuesSorted_getByteEventMap h p (mem_eraseQ hp)
        · simp [h1, hl, h2]
          refine allQueuesSorted_setByteEventMap h fun p hp => ?_
          rcases mem_updateQ hp with hp' | hp'
          · rw [hp']
            exact queueSorted_dropWhile _
              (allQueuesSorted_getByteEventMap h _ (lookupQ_mem hl))
          · exact allQueuesSorted_getByteEventMap h p hp'

theorem quic_C2_witness :
    AllQueuesSorted (registerByteEventCallback c2state BEType.ACK 0 4 (some 9)).state ∧
    AllQueuesSorted (cancelByteEventCallbacksForStream c2state BEType.ACK 0 (some 4)).state :=
  quic_C2 c2state BEType.ACK 0 4 (some 9) (some 4) (by decide)

theorem mem_byteEventsUpTo {q : List ByteEventDetail} {offset c : Nat}
    (hs : QueueSorted q) (hm : (⟨offset, c⟩ : ByteEventDetail) ∈ q) :
    (byteEventsUpTo q offset).any
      (fun p => p.offset == offset && p.callback == c) = true := by
  induction q with
  | nil => cases hm
  | cons d rest ih =>
    rw [QueueSorted, List.pairwise_cons] at hs
    obtain ⟨hhead, hrest⟩ := hs
    rcases List.mem_cons.1 hm with hm' | hm'
    · subst hm'
      unfold byteEventsUpTo
      rw [List.takeWhile_cons]
      simp
    · have hd : d.offset ≤ offset := hhead _ hm'
      have hdb : decide (d.offset ≤ offset) = true := by simpa using hd
      unfold byteEventsUpTo at ih ⊢
      rw [List.takeWhile_cons, if_pos hdb, List.any_cons, ih hrest hm']
      simp

/-- Claim C6: `registerByteEventCallback` returns INVALID_OPERATION, leaving
the state (in particular the byte-event queue) unchanged and issuing no
notification, whenever the (sorted) queue for the requested (type, stream)
already holds an entry with the same offset and the same callback — such an
entry necessarily sits at or before the sorted insertion point for the
requested offset. -/
theorem quic_C6 (s : Conn) (t : BEType) (id offset c : Nat)
    (q : List ByteEventDetail)
    (hrecv : isReceivingStream s.nodeType id = false)
    (hopen : s.closeState = CloseState.OPEN)
    (hex : streamExists s id = true)
    (hq : lookupQ (getByteEventMap s t) id = some q)
    (hsorted : QueueSorted q)
    (hmem : (⟨offset, c⟩ : ByteEventDetail) ∈ q) :
    registerByteEventCallback s t id offset (some c) =
      ⟨Except.error LocalErrorCode.INVALID_OPERATION, s, none, false⟩ := by
  unfold registerByteEventCallback
  simp [hrecv, hopen, hex, hq, mem_byteEventsUpTo hsorted hmem]

theorem quic_C6_witness :
    registerByteEventCallback c6state BEType.ACK 0 5 (some 7) =
      ⟨Except.error LocalErrorCode.INVALID_OPERATION, c6state, none, false⟩ :=
  quic_C6 c6state BEType.ACK 0 5 7 [⟨5, 7⟩] (by decide) (by decide)
    (by decide) (by decide) (by decide) (by decide)

theorem drainTimeoutExpired_socketBound (s : Conn) :
    (drainTimeoutExpired s).socketBound = false := by
  unfold drainTimeoutExpired unbindConnection closeUdpSocket
  split
  · simp_all
  · rfl

theorem drainTimeoutExpired_connectionBound (s : Conn) :
    (drainTimeoutExpired s).connectionBound = false := by
  unfold drainTimeoutExpired unbindConnection closeUdpSocket
  split
  · rfl
  · rfl

/-- Claim C4: `closeImpl` on a not-yet-Closed connection arms the drain timer
(for `kDrainFactor * calculatePTO`) iff `drainConnection` is passed,
`transportSettings.shouldDrain` is set, and the cancel code is none of
CONNECTION_RESET, CONNECTION_ABANDONED, or INVALID_MIGRATION; in every other
case it fires `drainTimeoutExpired` synchronously, which closes the UDP
socket and unbinds the connection. -/
theorem quic_C4 (s : Conn) (e : Option QuicError) (dc sci : Bool)
    (h : s.closeState ≠ CloseState.CLOSED) (cc : QuicError)
    (hcc : (closeImpl s e dc sci).cancelCodeDelivered = some cc) :
    ((closeImpl s e dc sci).drainTimerScheduled = true ↔
      (dc = true ∧ s.transportSettings.shouldDrain = true ∧
       cc.code ≠ QuicErrorCode.Loc LocalErrorCode.CONNECTION_RESET ∧
       cc.code ≠ QuicErrorCode.Loc LocalErrorCode.CONNECTION_ABANDONED ∧
       cc.code ≠ QuicErrorCode.Transport TransportErrorCode.INVALID_MIGRATION)) ∧
    ((closeImpl s e dc sci).drainTimerScheduled = true →
      (closeImpl s e dc sci).drainDuration =
        some (kDrainFactor * calculatePTO s) ∧
      (closeImpl s e dc sci).state.drainTimerArmed = true ∧
      (closeImpl s e dc sci).drainExpiredSynchronously = false) ∧
    ((closeImpl s e dc sci).drainTimerScheduled = false →
      (closeImpl s e dc sci).drainExpiredSynchronously = true ∧
      (closeImpl s e dc sci).state.socketBound = false ∧
      (closeImpl s e dc sci).state.connectionBound = false) := by
  unfold closeImpl at hcc ⊢
  rw [if_neg h] at hcc ⊢
  dsimp only at hcc ⊢
  split at hcc <;> rename_i hC <;> injection hcc with hcc1 <;> subst hcc1
  · -- drain-timer branch: the condition held
    rw [if_pos hC]
    dsimp only
    simp only [Bool.and_eq_true, Bool.not_eq_true', decide_eq_false_iff_not]
      at hC
    obtain ⟨⟨⟨⟨hdc, hsd⟩, h1⟩, h2⟩, h3⟩ := hC
    refine ⟨⟨fun _ => ⟨hdc, hsd, h1, h2, h3⟩, fun _ => rfl⟩,
      fun _ => ⟨by cases e <;> simp [calculatePTO], rfl, rfl⟩,
      fun hbad => absurd hbad (by simp)⟩
  · -- synchronous drain branch: the condition failed
    rw [if_neg (by simp [hC])]
    dsimp only
    refine ⟨⟨fun hbad => absurd hbad (by simp), fun hP => ?_⟩,
      fun hbad => absurd hbad (by simp),
      fun _ => ⟨rfl, drainTimeoutExpired_socketBound _,
        drainTimeoutExpired_connectionBound _⟩⟩
    obtain ⟨hdc, hsd, h1, h2, h3⟩ := hP
    rw [hdc, hsd] at hC
    simp [h1, h2, h3] at hC

theorem quic_C4_witness :
    (closeImpl baseConn none true true).drainTimerScheduled = true ∧
    (closeImpl baseConn none true true).drainDuration =
      some (kDrainFactor * calculatePTO baseConn) := by
  have h := quic_C4 baseConn none true true (by decide)
    ⟨QuicErrorCode.Loc LocalErrorCode.NO_ERROR, "No Error"⟩ (by decide)
  have ht : (closeImpl baseConn none true true).drainTimerScheduled = true :=
    h.1.mpr (by decide)
  exact ⟨ht, (h.2.1 ht).1⟩

theorem applyEcnFailureCleanup_ecnState (s1 : Conn) :
    (applyEcnFailureCleanup s1).ecnState = s1.ecnState := by
  unfold applyEcnFailureCleanup
  split
  · dsimp only
    split <;> rfl
  · rfl

theorem applyEcnFailureCleanup_not_failed (s1 : Conn)
    (h : s1.ecnState ≠ ECNState.FailedValidation) :
    applyEcnFailureCleanup s1 = s1 := by
  unfold applyEcnFailureCleanup
  rw [if_neg h]

theorem applyEcnFailureCleanup_failed (s1 : Conn)
    (h : s1.ecnState = ECNState.FailedValidation) :
    (applyEcnFailureCleanup s1).socketTosEcn = 0 ∧
    (applyEcnFailureCleanup s1).tosHistory =
      s1.tosHistory ++ [s1.socketTosDscp * 4] ∧
    (applyEcnFailureCleanup s1).ecnL4sTrackerSet = false ∧
    (s1.ecnL4sTrackerSet = true →
      (applyEcnFailureCleanup s1).packetProcessorTrackerCount = 0) := by
  unfold applyEcnFailureCleanup socketTosValue
  rw [if_pos h]
  dsimp only
  by_cases htr : s1.ecnL4sTrackerSet
  · rw [if_pos htr]
    exact ⟨rfl, by simp, rfl, fun _ => rfl⟩
  · rw [if_neg htr]
    exact ⟨rfl, by simp, by simpa using htr, fun h' => absurd h' htr⟩

theorem applyEcnFailureCleanup_inv (s1 : Conn)
    (hinv1 : s1.packetProcessorTrackerCount =
      (if s1.ecnL4sTrackerSet then 1 else 0)) :
    (applyEcnFailureCleanup s1).packetProcessorTrackerCount =
      (if (applyEcnFailureCleanup s1).ecnL4sTrackerSet then 1 else 0) := by
  unfold applyEcnFailureCleanup
  split
  · dsimp only
    by_cases htr : s1.ecnL4sTrackerSet
    · rw [if_pos htr]
      rfl
    · rw [if_neg htr]
      simpa using hinv1
  · exact hinv1

theorem validateECN_failed_effects (s : Conn)
    (hne : s.ecnState ≠ ECNState.FailedValidation)
    (hF : (validateECNState s).ecnState = ECNState.FailedValidation) :
    (validateECNState s).socketTosEcn = 0 ∧
    (validateECNState s).tosHistory = s.tosHistory ++ [s.socketTosDscp * 4] ∧
    (validateECNState s).ecnL4sTrackerSet = false ∧
    (s.ecnL4sTrackerSet = true →
      (validateECNState s).packetProcessorTrackerCount = 0) := by
  unfold validateECNState at hF ⊢
  by_cases hg : s.ecnState = ECNState.NotAttempted ∨
      s.ecnState = ECNState.FailedValidation
  · rw [if_pos hg] at hF
    rcases hg with h' | h'
    · exact ECNState.noConfusion (h'.symm.trans hF)
    · exact absurd h' hne
  · rw [if_neg hg] at hF ⊢
    by_cases hmin : s.minimumExpectedEcnMarksEchoed < 10
    · rw [if_pos hmin] at hF
      exact absurd (Or.inr hF) hg
    · rw [if_neg hmin] at hF ⊢
      dsimp only at hF ⊢
      by_cases hecn : s.ecnState = ECNState.AttemptingECN ∨
          s.ecnState = ECNState.ValidatedECN
      · rw [if_pos hecn] at hF ⊢
        by_cases hcond : s.minimumExpectedEcnMarksEchoed ≤
              s.ecnCECountEchoed + s.ecnECT0CountEchoed ∧
            s.ecnCECountEchoed + s.ecnECT0CountEchoed ≤ s.totalPacketsSent ∧
            s.ecnECT1CountEchoed = 0
        · rw [if_pos hcond] at hF
          rw [applyEcnFailureCleanup_ecnState] at hF
          exact ECNState.noConfusion hF
        · rw [if_neg hcond] at hF ⊢
          exact applyEcnFailureCleanup_failed _ rfl
      · rw [if_neg hecn] at hF ⊢
        by_cases hcond : s.minimumExpectedEcnMarksEchoed ≤
              s.ecnCECountEchoed + s.ecnECT1CountEchoed ∧
            s.ecnCECountEchoed + s.ecnECT1CountEchoed ≤ s.totalPacketsSent ∧
            s.ecnECT0CountEchoed = 0
        · rw [if_pos hcond] at hF
          by_cases hvl : s.ecnState ≠ ECNState.ValidatedL4S
          · rw [if_pos hvl] at hF
            rw [applyEcnFailureCleanup_ecnState] at hF
            exact ECNState.noConfusion hF
          · rw [if_neg hvl] at hF
            rw [applyEcnFailureCleanup_ecnState] at hF
            exact absurd (Or.inr hF) hg
        · rw [if_neg hcond] at hF ⊢
          exact applyEcnFailureCleanup_failed _ rfl

theorem validateECN_tracker_invariant (s : Conn)
    (hinv : s.packetProcessorTrackerCount =
      (if s.ecnL4sTrackerSet then 1 else 0)) :
    (validateECNState s).packetProcessorTrackerCount =
      (if (validateECNState s).ecnL4sTrackerSet then 1 else 0) := by
  unfold validateECNState
  by_cases hg : s.ecnState = ECNState.NotAttempted ∨
      s.ecnState = ECNState.FailedValidation
  · rw [if_pos hg]
    exact hinv
  · rw [if_neg hg]
    by_cases hmin : s.minimumExpectedEcnMarksEchoed < 10
    · rw [if_pos hmin]
      exact hinv
    · rw [if_neg hmin]
      dsimp only
      by_cases hecn : s.ecnState = ECNState.AttemptingECN ∨
          s.ecnState = ECNState.ValidatedECN
      · rw [if_pos hecn]
        by_cases hcond : s.minimumExpectedEcnMarksEchoed ≤
              s.ecnCECountEchoed + s.ecnECT0CountEchoed ∧
            s.ecnCECountEchoed + s.ecnECT0CountEchoed ≤ s.totalPacketsSent ∧
            s.ecnECT1CountEchoed = 0
        · rw [if_pos hcond]
          rw [applyEcnFailureCleanup_not_failed _ (by simp)]
          exact hinv
        · rw [if_neg hcond]
          exact applyEcnFailureCleanup_inv _ hinv
      · rw [if_neg hecn]
        by_cases hcond : s.minimumExpectedEcnMarksEchoed ≤
              s.ecnCECountEchoed + s.ecnECT1CountEchoed ∧
            s.ecnCECountEchoed + s.ecnECT1CountEchoed ≤ s.totalPacketsSent ∧
            s.ecnECT0CountEchoed = 0
        · rw [if_pos hcond]
          by_cases hvl : s.ecnState ≠ ECNState.ValidatedL4S
          · rw [if_pos hvl]
            rw [applyEcnFailureCleanup_not_failed _ (by simp)]
            by_cases htr : s.ecnL4sTrackerSet = true
            · rw [if_neg (by simp [htr])]
              simpa [htr] using hinv
            · rw [if_pos (by simpa using htr)]
              have hf : s.ecnL4sTrackerSet = false := by simpa using htr
              simp [addTrackerPacketProcessor, hinv, hf]
          · rw [if_neg hvl]
            rw [applyEcnFailureCleanup_not_failed _
              (fun hF => hg (Or.inr hF))]
            exact hinv
        · rw [if_neg hcond]
          exact applyEcnFailureCleanup_inv _ hinv

/-- Claim C7: whenever `validateECNState` moves the ECN state to
FailedValidation, it zeroes the ecn nibble of the socket TOS, pushes the
updated TOS value to the UDP socket, and removes and resets an installed
`EcnL4sTracker`; and (given the state's tracker accounting is consistent)
successful L4S validation installs the `EcnL4sTracker` packet processor at
most once — the processor count never exceeds 1. -/
theorem quic_C7 (s : Conn) :
    ((s.ecnState ≠ ECNState.FailedValidation ∧
      (validateECNState s).ecnState = ECNState.FailedValidation) →
      ((validateECNState s).socketTosEcn = 0 ∧
       (validateECNState s).tosHistory =
         s.tosHistory ++ [s.socketTosDscp * 4] ∧
       (validateECNState s).ecnL4sTrackerSet = false ∧
       (s.ecnL4sTrackerSet = true →
         (validateECNState s).packetProcessorTrackerCount = 0))) ∧
    (s.packetProcessorTrackerCount = (if s.ecnL4sTrackerSet then 1 else 0) →
      ((validateECNState s).packetProcessorTrackerCount =
        (if (validateECNState s).ecnL4sTrackerSet then 1 else 0) ∧
       (validateECNState s).packetProcessorTrackerCount ≤ 1)) := by
  refine ⟨fun h => validateECN_failed_effects s h.1 h.2, fun hinv => ?_⟩
  have h2 := validateECN_tracker_invariant s hinv
  refine ⟨h2, ?_⟩
  rw [h2]
  split <;> omega

theorem quic_C7_witness :
    (validateECNState c7state).socketTosEcn = 0 ∧
    (validateECNState c7state).tosHistory =
      c7state.tosHistory ++ [c7state.socketTosDscp * 4] ∧
    (validateECNState c7state).ecnL4sTrackerSet = false ∧
    (validateECNState c7l4sState).packetProcessorTrackerCount ≤ 1 := by
  have h1 := (quic_C7 c7state).1 ⟨by decide, by decide⟩
  have h2 := (quic_C7 c7l4sState).2 (by decide)
  exact ⟨h1.1, h1.2.1, h1.2.2.1, h2.2⟩

end Mvfst
